import Mathlib

/-!
Shallow embedding of the data-retrieval core of `app.py` (TrustFlash Bot
dashboard): the value sanitizer `safe_float`, the single-source VIX fetcher
`get_vix`, the multi-source GEX fetcher `get_gex` with its ordered URL chain
and local static fallback, and the time-to-live memoization layer wrapping
both fetchers.

Pandas data frames are modelled as `Table`: a list of column names, a list of
opaque row identifiers (row order and identity are what the properties need;
cell contents are irrelevant to them), and the value of the `_src` provenance
column when one has been assigned. The outcome of each external retrieval
(`pd.read_csv` on a URL or file, `yf.Ticker(..).history`) is an input to the
embedded function: `Except PyExc Table`, an exception or a parsed table.
-/

namespace TrustFlash

/-- A Python exception value: `ValueError(msg)`, `KeyError(key)`, or any other
exception (network errors, parse errors, ...) identified by an opaque code. -/
inductive PyExc where
  | valueError (msg : String)
  | keyError (key : String)
  | other (code : Nat)
deriving DecidableEq, Repr

instance exceptDecEq {ε α : Type} [DecidableEq ε] [DecidableEq α] :
    DecidableEq (Except ε α)
  | .error e, .error f =>
    if h : e = f then .isTrue (by rw [h])
    else .isFalse (fun hc => h (Except.error.inj hc))
  | .error _, .ok _ => .isFalse (fun hc => Except.noConfusion hc)
  | .ok _, .error _ => .isFalse (fun hc => Except.noConfusion hc)
  | .ok a, .ok b =>
    if h : a = b then .isTrue (by rw [h])
    else .isFalse (fun hc => h (Except.ok.inj hc))

/-- A pandas DataFrame as the fetchers see it: its column names, its rows
(opaque identifiers, in order), and the value of the `_src` provenance column
if one has been assigned (`none` when the table carries no provenance). -/
structure Table where
  cols : List String
  rows : List Nat
  src : Option String
deriving DecidableEq, Repr

/-- `df.tail(n)`: the last `n` rows (all rows when there are fewer than `n`),
in their original order; columns unchanged. -/
def tailN (n : Nat) (t : Table) : Table :=
  { t with rows := t.rows.drop (t.rows.length - n) }

/-- `df["_src"] = u`: assign the provenance column (appending `_src` to the
columns when absent, overwriting its value when present). -/
def setSrc (t : Table) (u : String) : Table :=
  { cols := if "_src" ∈ t.cols then t.cols else t.cols ++ ["_src"],
    rows := t.rows,
    src := some u }

/-- `df[c] = ...` for a fresh derived column (e.g. `MA20`): appends the column
name when absent; rows and provenance unchanged. -/
def addCol (t : Table) (c : String) : Table :=
  { t with cols := if c ∈ t.cols then t.cols else t.cols ++ [c] }

/-- The acceptance check of `get_gex`, line for line
`not df.empty and "GEX" in df.columns`. -/
def gexAccepts (t : Table) : Bool :=
  !t.rows.isEmpty && decide ("GEX" ∈ t.cols)

/-- A source attempt counts as failed when it raises or when its table is
rejected by the acceptance check (empty, or missing the `GEX` column). -/
def srcFails : Except PyExc Table → Bool
  | .error _ => true
  | .ok df => !gexAccepts df

/-- First configured remote GEX source. -/
def GEX_URL1 : String :=
  "https://raw.githubusercontent.com/SqueezeMetrics/legacy-data/master/spy_gex.csv"

/-- Second configured remote GEX source (mirror). -/
def GEX_URL2 : String :=
  "https://cdn.jsdelivr.net/gh/SqueezeMetrics/legacy-data@master/spy_gex.csv"

/-- The `for url in urls:` loop of `get_gex`, over the ordered list of
(url, retrieval outcome) pairs. A raise inside the `try` hits `continue`;
a table failing the acceptance check falls through to the next iteration;
an accepted table is tagged with its URL and truncated to the last 60 rows. -/
def gexLoop : List (String × Except PyExc Table) → Option Table
  | [] => none
  | (_, .error _) :: rest => gexLoop rest
  | (url, .ok df) :: rest =>
    if gexAccepts df then some (tailN 60 (setSrc df url)) else gexLoop rest

/-- External world of one `get_gex` call: the outcome of `pd.read_csv` on each
of the two URLs, whether `sample_gex.csv` exists next to the script, and the
outcome of `pd.read_csv` on it (relevant only when it exists). -/
structure GexEnv where
  src1 : Except PyExc Table
  src2 : Except PyExc Table
  localExists : Bool
  localRead : Except PyExc Table
deriving DecidableEq, Repr

/-- `get_gex` from `app.py`: try the two URLs in order (failures and rejected
tables fall through); then, if the local sample file exists, read it — note
this read sits outside any `try`, so a parse failure propagates — tag it
`"local_sample"` and return its tail; otherwise raise
`ValueError("No GEX data available")`. -/
def get_gex (env : GexEnv) : Except PyExc Table :=
  match gexLoop [(GEX_URL1, env.src1), (GEX_URL2, env.src2)] with
  | some t => .ok t
  | none =>
    if env.localExists then
      match env.localRead with
      | .ok df => .ok (tailN 60 (setSrc df "local_sample"))
      | .error e => .error e
    else
      .error (.valueError "No GEX data available")

/-- External world of one `get_vix` call: the outcome of
`yf.Ticker("^VIX").history(period="6mo", interval="1d")`. -/
structure VixEnv where
  history : Except PyExc Table
deriving DecidableEq, Repr

/-- `get_vix` from `app.py`: a single source, no `try` around it (a retrieval
failure propagates unchanged); reject short histories with
`ValueError("Insufficient VIX data")`; `df["Close"]` raises `KeyError` when
the column is absent; otherwise add the `MA20` column and return the last
90 rows. No provenance is assigned. -/
def get_vix (env : VixEnv) : Except PyExc Table :=
  match env.history with
  | .error e => .error e
  | .ok df =>
    if df.rows = [] ∨ df.rows.length < 30 then
      .error (.valueError "Insufficient VIX data")
    else if "Close" ∈ df.cols then
      .ok (tailN 90 (addCol df "MA20"))
    else
      .error (.keyError "Close")

/-- A Python float: a finite value (modelled as a rational), NaN, or a signed
infinity. -/
inductive PyFloat where
  | finite (q : ℚ)
  | nan
  | inf
  | ninf
deriving DecidableEq, Repr

/-- The values `safe_float` can receive: a float, an int, `None`, a string
that `float()` parses to a given float, a string `float()` rejects, a
`pd.Series` of values, or any other object `float()` cannot convert. -/
inductive PyVal where
  | pyFloat (f : PyFloat)
  | pyInt (n : ℤ)
  | pyNone
  | strNum (f : PyFloat)
  | strNonNum
  | series (elems : List PyVal)
  | otherObj

/-- The builtin `float(v)`: floats pass through, ints convert exactly,
numeric strings parse (including `"inf"`/`"nan"`), and `None`, non-numeric
strings, Series and other objects raise. -/
def pyFloatCast : PyVal → Except Unit PyFloat
  | .pyFloat f => .ok f
  | .pyInt n => .ok (.finite n)
  | .pyNone => .error ()
  | .strNum f => .ok f
  | .strNonNum => .error ()
  | .series _ => .error ()
  | .otherObj => .error ()

/-- `pd.isna` on a float: true exactly on NaN (infinities are not NA). -/
def pyIsna : PyFloat → Bool
  | .nan => true
  | _ => false

/-- `safe_float` from `app.py`: unwrap a `pd.Series` to its first element
(`.iloc[0]` raises on an empty one, caught like every other exception),
convert with `float`, map NaN to `None`, and collapse every exception to
`None`. -/
def safe_float (v : PyVal) : Option PyFloat :=
  let unwrapped : Except Unit PyVal :=
    match v with
    | .series [] => .error ()
    | .series (e :: _) => .ok e
    | w => .ok w
  match unwrapped with
  | .error _ => none
  | .ok w =>
    match pyFloatCast w with
    | .error _ => none
    | .ok f => if pyIsna f then none else some f

/-- One cache slot of the memoization layer: the stored value and the time it
was stored. -/
structure CacheEntry (α : Type) where
  value : α
  storedAt : Nat
deriving DecidableEq, Repr

/-- Modelled from the spec: the miss path of the `st.cache_data` memoization
layer (library code, not in the repository). Invoke the producer; on success
store `(result, now)` and return it; on failure do not cache and propagate the
failure unchanged. The third component records that the producer was invoked. -/
def runProducer {α : Type} (producer : Except PyExc α) (now : Nat)
    (entry : Option (CacheEntry α)) :
    Except PyExc α × Option (CacheEntry α) × Bool :=
  match producer with
  | .ok v => (.ok v, some ⟨v, now⟩, true)
  | .error e => (.error e, entry, true)

/-- Modelled from the spec: one invocation of an `st.cache_data(ttl=...)`
wrapped zero-argument function (library code, not in the repository; the spec
gives the Cache Layer contract). If a non-expired entry exists
(`now - storedAt < ttl`), return its stored value without invoking the
producer; otherwise run the producer. Returns (result, new cache state,
whether the producer was invoked). -/
def cached_call {α : Type} (ttl : Nat) (producer : Except PyExc α) (now : Nat)
    (entry : Option (CacheEntry α)) :
    Except PyExc α × Option (CacheEntry α) × Bool :=
  match entry with
  | some e =>
    if now - e.storedAt < ttl then (.ok e.value, some e, false)
    else runProducer producer now (some e)
  | none => runProducer producer now none

/-! ### Basic facts about the table operations and the source loop -/

lemma tailN_src (n : Nat) (t : Table) : (tailN n t).src = t.src := rfl

lemma tailN_cols (n : Nat) (t : Table) : (tailN n t).cols = t.cols := rfl

lemma tailN_rows (n : Nat) (t : Table) :
    (tailN n t).rows = t.rows.drop (t.rows.length - n) := rfl

lemma setSrc_src (t : Table) (u : String) : (setSrc t u).src = some u := rfl

lemma setSrc_rows (t : Table) (u : String) : (setSrc t u).rows = t.rows := rfl

lemma mem_setSrc_cols {c : String} {t : Table} (u : String) (h : c ∈ t.cols) :
    c ∈ (setSrc t u).cols := by
  simp only [setSrc]
  split <;> simp [h]

lemma addCol_src (t : Table) (c : String) : (addCol t c).src = t.src := rfl

lemma addCol_rows (t : Table) (c : String) : (addCol t c).rows = t.rows := rfl

lemma mem_addCol_cols {c : String} {t : Table} (d : String) (h : c ∈ t.cols) :
    c ∈ (addCol t d).cols := by
  simp only [addCol]
  split <;> simp [h]

lemma tailN_rows_ne_nil {n : Nat} {t : Table} (hn : 0 < n) (h : t.rows ≠ []) :
    (tailN n t).rows ≠ [] := by
  have hlen : 0 < t.rows.length := List.length_pos.mpr h
  have hpos : 0 < (tailN n t).rows.length := by
    rw [tailN_rows, List.length_drop]
    omega
  exact List.length_pos.mp hpos

lemma gexAccepts_spec {df : Table} (h : gexAccepts df = true) :
    df.rows ≠ [] ∧ "GEX" ∈ df.cols := by
  simp only [gexAccepts, Bool.and_eq_true, Bool.not_eq_true', List.isEmpty_eq_false,
    decide_eq_true_eq] at h
  exact h

lemma gexLoop_eq_none_of_all_fail :
    ∀ srcs : List (String × Except PyExc Table),
      (∀ p ∈ srcs, srcFails p.2 = true) → gexLoop srcs = none := by
  intro srcs h
  induction srcs with
  | nil => rfl
  | cons p rest ih =>
    obtain ⟨u, r⟩ := p
    cases r with
    | error e =>
      simpa [gexLoop] using ih (fun q hq => h q (List.mem_cons_of_mem _ hq))
    | ok df =>
      have hf : srcFails (Except.ok df) = true := h _ (List.mem_cons_self _ _)
      have hacc : gexAccepts df = false := by simpa [srcFails] using hf
      simpa [gexLoop, hacc] using ih (fun q hq => h q (List.mem_cons_of_mem _ hq))

lemma gexLoop_eq_some {srcs : List (String × Except PyExc Table)} {t : Table}
    (h : gexLoop srcs = some t) :
    ∃ u df, (u, Except.ok df) ∈ srcs ∧ gexAccepts df = true
      ∧ t = tailN 60 (setSrc df u) := by
  induction srcs with
  | nil => simp [gexLoop] at h
  | cons p rest ih =>
    obtain ⟨u, r⟩ := p
    cases r with
    | error e =>
      obtain ⟨u', df, hmem, hacc, ht⟩ := ih (by simpa [gexLoop] using h)
      exact ⟨u', df, List.mem_cons_of_mem _ hmem, hacc, ht⟩
    | ok df =>
      by_cases hacc : gexAccepts df = true
      · refine ⟨u, df, List.mem_cons_self _ _, hacc, ?_⟩
        rw [show gexLoop ((u, Except.ok df) :: rest)
              = some (tailN 60 (setSrc df u)) by simp [gexLoop, hacc]] at h
        exact (Option.some.inj h).symm
      · have hacc' : gexAccepts df = false := by
          simpa using hacc
        obtain ⟨u', df', hmem, hacc2, ht⟩ := ih (by simpa [gexLoop, hacc'] using h)
        exact ⟨u', df', List.mem_cons_of_mem _ hmem, hacc2, ht⟩

lemma get_vix_eq_ok {env : VixEnv} {t : Table} (h : get_vix env = Except.ok t) :
    ∃ df, env.history = Except.ok df ∧ df.rows ≠ [] ∧ 30 ≤ df.rows.length
      ∧ "Close" ∈ df.cols ∧ t = tailN 90 (addCol df "MA20") := by
  obtain ⟨hist⟩ := env
  cases hist with
  | error e => simp [get_vix] at h
  | ok df =>
    by_cases hshort : df.rows = [] ∨ df.rows.length < 30
    · simp [get_vix, hshort] at h
    · by_cases hclose : "Close" ∈ df.cols
      · refine ⟨df, rfl, ?_, ?_, hclose, ?_⟩
        · exact fun hc => hshort (Or.inl hc)
        · have h2 : ¬ df.rows.length < 30 := fun hc => hshort (Or.inr hc)
          omega
        · rw [show get_vix ⟨Except.ok df⟩ = Except.ok (tailN 90 (addCol df "MA20"))
            by simp [get_vix, hshort, hclose]] at h
          exact (Except.ok.inj h).symm
      · simp [get_vix, hshort, hclose] at h

lemma get_gex_src {env : GexEnv} {t : Table} (h : get_gex env = Except.ok t) :
    t.src = some GEX_URL1 ∨ t.src = some GEX_URL2 ∨ t.src = some "local_sample" := by
  unfold get_gex at h
  cases hloop : gexLoop [(GEX_URL1, env.src1), (GEX_URL2, env.src2)] with
  | some t' =>
    rw [hloop] at h
    have ht : t = t' := (Except.ok.inj h).symm
    obtain ⟨u, df, hmem, _, ht'⟩ := gexLoop_eq_some hloop
    have hu : u = GEX_URL1 ∨ u = GEX_URL2 := by
      simp only [List.mem_cons, List.mem_singleton, List.not_mem_nil, or_false] at hmem
      rcases hmem with h1 | h2
      · exact Or.inl (congrArg Prod.fst h1)
      · exact Or.inr (congrArg Prod.fst h2)
    have hsrc : t.src = some u := by
      rw [ht, ht', tailN_src, setSrc_src]
    rcases hu with h1 | h2
    · exact Or.inl (h1 ▸ hsrc)
    · exact Or.inr (Or.inl (h2 ▸ hsrc))
  | none =>
    rw [hloop] at h
    by_cases hex : env.localExists
    · rw [if_pos hex] at h
      cases hread : env.localRead with
      | error e => rw [hread] at h; exact absurd h (by simp)
      | ok df =>
        rw [hread] at h
        have ht : t = tailN 60 (setSrc df "local_sample") := (Except.ok.inj h).symm
        exact Or.inr (Or.inr (by rw [ht, tailN_src, setSrc_src]))
    · rw [if_neg hex] at h
      exact absurd h (by simp)

/-! ### C1 -/

/-- C1: within one GEX fetch, sources are tried strictly in configured order;
when every source before some source fails (raises, or yields an empty table
or one missing the `GEX` column) and that source yields a non-empty table
containing the `GEX` column, the fetch returns that source's table tagged
with that source's URL as provenance, whatever the later sources and the
local fallback would do — so nothing after the first acceptable source is
ever attempted. Stated for the general loop and for `get_gex` itself with
its first URL failing and its second succeeding. -/
theorem gex_priority_first_acceptable_wins :
    (∀ (pre : List (String × Except PyExc Table)) (u : String) (df : Table)
        (suf : List (String × Except PyExc Table)),
        (∀ p ∈ pre, srcFails p.2 = true) → gexAccepts df = true →
        gexLoop (pre ++ (u, Except.ok df) :: suf) = some (tailN 60 (setSrc df u)))
    ∧ (∀ (env : GexEnv) (df : Table),
        srcFails env.src1 = true → env.src2 = Except.ok df →
        gexAccepts df = true →
        get_gex env = Except.ok (tailN 60 (setSrc df GEX_URL2))) := by
  constructor
  · intro pre u df suf hall hacc
    induction pre with
    | nil => simp [gexLoop, hacc]
    | cons p rest ih =>
      obtain ⟨pu, pr⟩ := p
      cases pr with
      | error e =>
        simpa [gexLoop] using ih (fun q hq => hall q (List.mem_cons_of_mem _ hq))
      | ok pdf =>
        have hf : srcFails (Except.ok pdf) = true := hall _ (List.mem_cons_self _ _)
        have hpacc : gexAccepts pdf = false := by simpa [srcFails] using hf
        simpa [gexLoop, hpacc] using ih (fun q hq => hall q (List.mem_cons_of_mem _ hq))
  · intro env df h1 h2 hacc
    have hloop : gexLoop [(GEX_URL1, env.src1), (GEX_URL2, env.src2)]
        = some (tailN 60 (setSrc df GEX_URL2)) := by
      cases hsrc1 : env.src1 with
      | error e => rw [h2]; simp [gexLoop, hacc]
      | ok df1 =>
        have hacc1 : gexAccepts df1 = false := by
          rw [hsrc1] at h1; simpa [srcFails] using h1
        rw [h2]; simp [gexLoop, hacc1, hacc]
    simp [get_gex, hloop]

/-- Witness data for C1: a first source that raises and a second source whose
table is non-empty and has the `GEX` column. -/
def dfW1 : Table := ⟨["date", "GEX"], [0, 1, 2], none⟩

/-- Witness environment for C1; the local fallback is absent, so the returned
table can only have come from the second URL. -/
def envW1 : GexEnv := ⟨Except.error (PyExc.other 0), Except.ok dfW1, false,
  Except.error (PyExc.other 0)⟩

/-- Concrete instance of C1. -/
theorem gex_priority_first_acceptable_wins_wit :
    get_gex envW1 = Except.ok (tailN 60 (setSrc dfW1 GEX_URL2)) :=
  gex_priority_first_acceptable_wins.2 envW1 dfW1 (by decide) rfl (by decide)

/-! ### C2 -/

/-- C2: when both remote GEX sources fail and the local static fallback file
exists and parses, `get_gex` returns the fallback's table (its trailing
window) tagged with the sentinel provenance `"local_sample"`. -/
theorem gex_local_fallback :
    ∀ (env : GexEnv) (df : Table),
      srcFails env.src1 = true → srcFails env.src2 = true →
      env.localExists = true → env.localRead = Except.ok df →
      get_gex env = Except.ok (tailN 60 (setSrc df "local_sample")) := by
  intro env df h1 h2 hex hread
  have hloop : gexLoop [(GEX_URL1, env.src1), (GEX_URL2, env.src2)] = none := by
    apply gexLoop_eq_none_of_all_fail
    intro p hp
    simp only [List.mem_cons, List.mem_singleton, List.not_mem_nil, or_false] at hp
    rcases hp with h | h <;> rw [h]
    · exact h1
    · exact h2
  simp [get_gex, hloop, hex, hread]

/-- Witness table for C2 (the parsed local sample). -/
def dfW2 : Table := ⟨["date", "GEX"], [5], none⟩

/-- Witness environment for C2: both URLs raise, the local file exists and
parses to `dfW2`. -/
def envW2 : GexEnv := ⟨Except.error (PyExc.other 0), Except.error (PyExc.other 1),
  true, Except.ok dfW2⟩

/-- Concrete instance of C2. -/
theorem gex_local_fallback_wit :
    get_gex envW2 = Except.ok (tailN 60 (setSrc dfW2 "local_sample")) :=
  gex_local_fallback envW2 dfW2 (by decide) (by decide) rfl rfl

/-! ### C3 -/

/-- Environment refuting C3 as stated: every remote source fails, the local
sample file exists, and reading it raises an exception (code 3). -/
def envC3 : GexEnv := ⟨Except.error (PyExc.other 1), Except.error (PyExc.other 2),
  true, Except.error (PyExc.other 3)⟩

/-- Counterexample to C3 as stated: with all remote sources failing and a
local fallback that exists but fails to parse, `get_gex` does not raise the
dataset-exhaustion `ValueError` — the raw parse exception escapes instead,
because the local read sits outside the `try`. -/
theorem gex_exhaustion_cex :
    get_gex envC3 = Except.error (PyExc.other 3)
    ∧ PyExc.other 3 ≠ PyExc.valueError "No GEX data available" := by
  refine ⟨by rfl, by decide⟩

/-- C3 (amended): when every remote source fails, `get_gex` raises the typed
exhaustion error `ValueError("No GEX data available")` exactly when the local
fallback file is absent; when the file exists but fails to parse, the parse
exception itself propagates to the caller unchanged. -/
theorem gex_exhaustion_amended :
    (∀ env : GexEnv,
        srcFails env.src1 = true → srcFails env.src2 = true →
        env.localExists = false →
        get_gex env = Except.error (PyExc.valueError "No GEX data available"))
    ∧ (∀ (env : GexEnv) (e : PyExc),
        srcFails env.src1 = true → srcFails env.src2 = true →
        env.localExists = true → env.localRead = Except.error e →
        get_gex env = Except.error e) := by
  have hloop : ∀ env : GexEnv, srcFails env.src1 = true → srcFails env.src2 = true →
      gexLoop [(GEX_URL1, env.src1), (GEX_URL2, env.src2)] = none := by
    intro env h1 h2
    apply gexLoop_eq_none_of_all_fail
    intro p hp
    simp only [List.mem_cons, List.mem_singleton, List.not_mem_nil, or_false] at hp
    rcases hp with h | h <;> rw [h]
    · exact h1
    · exact h2
  constructor
  · intro env h1 h2 hex
    simp [get_gex, hloop env h1 h2, hex]
  · intro env e h1 h2 hex hread
    simp [get_gex, hloop env h1 h2, hex, hread]

/-- Concrete instance of the amended C3 (absent fallback branch). -/
theorem gex_exhaustion_amended_wit :
    get_gex ⟨Except.error (PyExc.other 1), Except.error (PyExc.other 2), false,
      Except.error (PyExc.other 3)⟩
      = Except.error (PyExc.valueError "No GEX data available") :=
  gex_exhaustion_amended.1 _ (by decide) (by decide) rfl

/-! ### C4 -/

/-- C4: a remote source yielding a non-empty table that lacks the `GEX`
column is rejected: the loop's outcome is the outcome of the remaining
sources, exactly as if that source had raised a network error — the
malformed table is never what the fetch returns. -/
theorem gex_schema_rejection :
    ∀ (u : String) (df : Table) (rest : List (String × Except PyExc Table))
      (e : PyExc),
      df.rows ≠ [] → "GEX" ∉ df.cols →
      gexLoop ((u, Except.ok df) :: rest) = gexLoop rest
      ∧ gexLoop ((u, Except.ok df) :: rest) = gexLoop ((u, Except.error e) :: rest) := by
  intro u df rest e _ hnocol
  have hacc : gexAccepts df = false := by
    simp [gexAccepts, hnocol]
  constructor
  · simp [gexLoop, hacc]
  · simp [gexLoop, hacc]

/-- Witness table for C4: non-empty but without a `GEX` column. -/
def dfW4 : Table := ⟨["date", "gamma"], [0, 1], none⟩

/-- Concrete instance of C4. -/
theorem gex_schema_rejection_wit :
    gexLoop [("u", Except.ok dfW4)] = gexLoop []
    ∧ gexLoop [("u", Except.ok dfW4)]
        = gexLoop [("u", Except.error (PyExc.other 0))] :=
  gex_schema_rejection "u" dfW4 [] (PyExc.other 0) (by decide) (by decide)

/-! ### C5 -/

/-- Counterexample to C5 as stated: `get_vix` wraps its single source in no
`try` at all, so a retrieval failure (here an arbitrary network exception,
code 7) propagates to the caller as-is — it is a per-source error escaping
the fetcher, not the typed dataset-level failure. -/
theorem vix_error_escapes_cex :
    get_vix ⟨Except.error (PyExc.other 7)⟩ = Except.error (PyExc.other 7)
    ∧ PyExc.other 7 ≠ PyExc.valueError "Insufficient VIX data" := by
  refine ⟨rfl, by decide⟩

/-- C5 (amended): per-source failures are caught and cause fallthrough only
for the remote GEX sources; `get_vix` propagates a retrieval failure of its
single source unchanged, and `get_gex` propagates a parse failure of the
existing local fallback unchanged. -/
theorem per_source_error_policy_amended :
    (∀ (u : String) (e : PyExc) (rest : List (String × Except PyExc Table)),
        gexLoop ((u, Except.error e) :: rest) = gexLoop rest)
    ∧ (∀ (env : VixEnv) (e : PyExc),
        env.history = Except.error e → get_vix env = Except.error e)
    ∧ (∀ (env : GexEnv) (e : PyExc),
        srcFails env.src1 = true → srcFails env.src2 = true →
        env.localExists = true → env.localRead = Except.error e →
        get_gex env = Except.error e) := by
  refine ⟨?_, ?_, ?_⟩
  · intro u e rest
    simp [gexLoop]
  · intro env e h
    simp [get_vix, h]
  · intro env e h1 h2 hex hread
    have hloop : gexLoop [(GEX_URL1, env.src1), (GEX_URL2, env.src2)] = none := by
      apply gexLoop_eq_none_of_all_fail
      intro p hp
      simp only [List.mem_cons, List.mem_singleton, List.not_mem_nil, or_false] at hp
      rcases hp with h | h <;> rw [h]
      · exact h1
      · exact h2
    simp [get_gex, hloop, hex, hread]

/-- Concrete instance of the amended C5 (VIX propagation branch). -/
theorem per_source_error_policy_amended_wit :
    get_vix ⟨Except.error (PyExc.other 9)⟩ = Except.error (PyExc.other 9) :=
  per_source_error_policy_amended.2.1 ⟨Except.error (PyExc.other 9)⟩
    (PyExc.other 9) rfl

/-! ### C6 -/

/-- Environment refuting C6 as stated: every remote source fails and the
local sample file parses to an empty table (with the right columns). -/
def envC6 : GexEnv := ⟨Except.error (PyExc.other 1), Except.error (PyExc.other 2),
  true, Except.ok ⟨["date", "GEX"], [], none⟩⟩

/-- The table `get_gex` returns in `envC6`: empty. -/
def tC6 : Table := ⟨["date", "GEX", "_src"], [], some "local_sample"⟩

/-- Counterexample to C6 as stated: the local fallback path applies no
acceptance check, so an empty parsed fallback is returned as-is — a
successfully returned table that is empty. -/
theorem gex_empty_fallback_cex :
    get_gex envC6 = Except.ok tC6 ∧ tC6.rows = [] := by
  refine ⟨by rfl, rfl⟩

/-- C6 (amended): the non-empty-with-required-column invariant holds for
every table the remote-source loop accepts and for every table `get_vix`
returns, but not for the local-fallback path, which returns the parsed
sample without validation. -/
theorem returned_table_validity_amended :
    (∀ (srcs : List (String × Except PyExc Table)) (t : Table),
        gexLoop srcs = some t → t.rows ≠ [] ∧ "GEX" ∈ t.cols)
    ∧ (∀ (env : VixEnv) (t : Table),
        get_vix env = Except.ok t → t.rows ≠ [] ∧ "Close" ∈ t.cols) := by
  constructor
  · intro srcs t h
    obtain ⟨u, df, _, hacc, ht⟩ := gexLoop_eq_some h
    obtain ⟨hne, hcol⟩ := gexAccepts_spec hacc
    constructor
    · rw [ht]
      exact tailN_rows_ne_nil (by omega) (by rw [setSrc_rows]; exact hne)
    · rw [ht, tailN_cols]
      exact mem_setSrc_cols u hcol
  · intro env t h
    obtain ⟨df, _, hne, _, hclose, ht⟩ := get_vix_eq_ok h
    constructor
    · rw [ht]
      exact tailN_rows_ne_nil (by omega) (by rw [addCol_rows]; exact hne)
    · rw [ht, tailN_cols]
      exact mem_addCol_cols "MA20" hclose

/-- Concrete instance of the amended C6 (remote-loop branch, using the C1
witness table). -/
theorem returned_table_validity_amended_wit :
    (tailN 60 (setSrc dfW1 GEX_URL1)).rows ≠ []
    ∧ "GEX" ∈ (tailN 60 (setSrc dfW1 GEX_URL1)).cols :=
  returned_table_validity_amended.1 [(GEX_URL1, Except.ok dfW1)]
    (tailN 60 (setSrc dfW1 GEX_URL1)) (by decide)

/-! ### C7 -/

/-- A realistic yfinance history table: OHLC columns, 30 rows, and of course
no `_src` provenance. -/
def dfC7 : Table := ⟨["Open", "High", "Low", "Close", "Volume"], List.range 30, none⟩

/-- Counterexample to C7 as stated: `get_vix` never assigns a provenance tag,
so the table it successfully returns carries none. -/
theorem vix_no_provenance_cex :
    get_vix ⟨Except.ok dfC7⟩ = Except.ok (tailN 90 (addCol dfC7 "MA20"))
    ∧ (tailN 90 (addCol dfC7 "MA20")).src = none := by
  refine ⟨by decide, rfl⟩

/-- C7 (amended): every table `get_gex` returns carries a provenance tag
whose value is exactly one of the two configured URLs or the sentinel
`"local_sample"`; `get_vix`, by contrast, passes its source's table through
untagged (the returned table's provenance is whatever the retrieved history
already had — for real yfinance data, none). -/
theorem provenance_amended :
    (∀ (env : GexEnv) (t : Table),
        get_gex env = Except.ok t →
        t.src = some GEX_URL1 ∨ t.src = some GEX_URL2 ∨ t.src = some "local_sample")
    ∧ (∀ (env : VixEnv) (df t : Table),
        env.history = Except.ok df → get_vix env = Except.ok t →
        t.src = df.src) := by
  constructor
  · intro env t h
    exact get_gex_src h
  · intro env df t hh h
    obtain ⟨df', hh', _, _, _, ht⟩ := get_vix_eq_ok h
    have hdf : df' = df := by
      rw [hh] at hh'
      exact (Except.ok.inj hh').symm
    rw [ht, hdf, tailN_src, addCol_src]

/-- Concrete instance of the amended C7 (GEX branch, via the C2 witness
environment). -/
theorem provenance_amended_wit :
    (tailN 60 (setSrc dfW2 "local_sample")).src = some GEX_URL1
    ∨ (tailN 60 (setSrc dfW2 "local_sample")).src = some GEX_URL2
    ∨ (tailN 60 (setSrc dfW2 "local_sample")).src = some "local_sample" :=
  provenance_amended.1 envW2 (tailN 60 (setSrc dfW2 "local_sample")) (by decide)

/-! ### C8 -/

/-- C8: for a fetch memoized with a time-to-live, a first call on an empty
cache invokes the producer and returns its successful result; a second call
within the TTL window returns the identical stored result without invoking
its producer (whatever that producer would now do), so across the two calls
the producer runs exactly once; a producer failure is never cached and
propagates unchanged. -/
theorem cache_ttl_hit_and_error :
    ∀ (α : Type) (ttl t1 t2 : Nat) (v : α) (p2 : Except PyExc α) (e : PyExc),
      t2 - t1 < ttl →
      (cached_call ttl (Except.ok v) t1 none).1 = Except.ok v
      ∧ (cached_call ttl (Except.ok v) t1 none).2.2 = true
      ∧ (cached_call ttl p2 t2 (cached_call ttl (Except.ok v) t1 none).2.1).1
          = (cached_call ttl (Except.ok v) t1 none).1
      ∧ (cached_call ttl p2 t2 (cached_call ttl (Except.ok v) t1 none).2.1).2.2
          = false
      ∧ @cached_call α ttl (Except.error e) t1 none = (Except.error e, none, true) := by
  intro α ttl t1 t2 v p2 e h
  have h1 : cached_call ttl (Except.ok v) t1 none
      = (Except.ok v, some ⟨v, t1⟩, true) := rfl
  refine ⟨by rw [h1], by rw [h1], ?_, ?_, rfl⟩
  · rw [h1]
    simp [cached_call, h]
  · rw [h1]
    simp [cached_call, h]

/-- Concrete instance of C8: ttl 900, first call at time 0, second at
time 10, first producer succeeding with 7, second producer failing. -/
theorem cache_ttl_hit_and_error_wit :
    (cached_call 900 (Except.ok (7 : Nat)) 0 none).1 = Except.ok 7
    ∧ (cached_call 900 (Except.ok (7 : Nat)) 0 none).2.2 = true
    ∧ (cached_call 900 (Except.error (PyExc.other 0)) 10
        (cached_call 900 (Except.ok (7 : Nat)) 0 none).2.1).1
        = (cached_call 900 (Except.ok (7 : Nat)) 0 none).1
    ∧ (cached_call 900 (Except.error (PyExc.other 0)) 10
        (cached_call 900 (Except.ok (7 : Nat)) 0 none).2.1).2.2 = false
    ∧ @cached_call Nat 900 (Except.error (PyExc.other 1)) 0 none
        = (Except.error (PyExc.other 1), none, true) :=
  cache_ttl_hit_and_error Nat 900 0 10 7 (Except.error (PyExc.other 0))
    (PyExc.other 1) (by decide)

/-! ### C9 -/

/-- Counterexample to C9 as stated: on an infinite float, `safe_float` does
not return absent — `float(inf)` succeeds and `pd.isna(inf)` is false, so the
infinity is returned as-is. -/
theorem safe_float_inf_cex :
    safe_float (PyVal.pyFloat PyFloat.inf) ≠ none
    ∧ safe_float (PyVal.pyFloat PyFloat.inf) = some PyFloat.inf := by
  refine ⟨by simp [safe_float, pyFloatCast, pyIsna], rfl⟩

/-- C9 (amended): `safe_float` returns a finite number itself, also when it
arrives singly wrapped in a Series; returns absent on NaN, on `None`, on a
non-numeric string, on an unconvertible object and on an empty Series; and
passes infinities through unchanged (the NA check does not reject them). As
a total function of its input it raises nothing and has no side effect. -/
theorem safe_float_amended :
    (∀ q : ℚ, safe_float (PyVal.pyFloat (PyFloat.finite q)) = some (PyFloat.finite q))
    ∧ (∀ q : ℚ, safe_float (PyVal.series [PyVal.pyFloat (PyFloat.finite q)])
        = some (PyFloat.finite q))
    ∧ safe_float (PyVal.pyFloat PyFloat.nan) = none
    ∧ safe_float PyVal.pyNone = none
    ∧ safe_float PyVal.strNonNum = none
    ∧ safe_float PyVal.otherObj = none
    ∧ safe_float (PyVal.series []) = none
    ∧ safe_float (PyVal.pyFloat PyFloat.inf) = some PyFloat.inf
    ∧ safe_float (PyVal.pyFloat PyFloat.ninf) = some PyFloat.ninf :=
  ⟨fun _ => rfl, fun _ => rfl, rfl, rfl, rfl, rfl, rfl, rfl, rfl⟩

/-! ### C10 -/

/-- C10: a source result accepted with at least window-many rows is returned
truncated to exactly the last window-many rows in their original order, and
the acceptance check is evaluated on the untruncated table: 60 rows for an
accepted GEX source, 90 rows for an accepted VIX history. -/
theorem window_truncation :
    (∀ (u : String) (df : Table) (rest : List (String × Except PyExc Table)),
        gexAccepts df = true → 60 ≤ df.rows.length →
        gexLoop ((u, Except.ok df) :: rest) = some (tailN 60 (setSrc df u))
        ∧ (tailN 60 (setSrc df u)).rows = df.rows.drop (df.rows.length - 60)
        ∧ (tailN 60 (setSrc df u)).rows.length = 60)
    ∧ (∀ (env : VixEnv) (df : Table),
        env.history = Except.ok df → "Close" ∈ df.cols → 90 ≤ df.rows.length →
        get_vix env = Except.ok (tailN 90 (addCol df "MA20"))
        ∧ (tailN 90 (addCol df "MA20")).rows = df.rows.drop (df.rows.length - 90)
        ∧ (tailN 90 (addCol df "MA20")).rows.length = 90) := by
  constructor
  · intro u df rest hacc hlen
    refine ⟨by simp [gexLoop, hacc], by rw [tailN_rows, setSrc_rows], ?_⟩
    rw [tailN_rows, setSrc_rows, List.length_drop]
    omega
  · intro env df hh hclose hlen
    have hshort : ¬ (df.rows = [] ∨ df.rows.length < 30) := by
      rintro (hc | hc)
      · rw [hc] at hlen; simp at hlen
      · omega
    refine ⟨?_, by rw [tailN_rows, addCol_rows], ?_⟩
    · simp [get_vix, hh, hshort, hclose]
    · rw [tailN_rows, addCol_rows, List.length_drop]
      omega

/-- Witness table for C10: 100 rows with the `GEX` column. -/
def dfW10 : Table := ⟨["date", "GEX"], List.range 100, none⟩

/-- Concrete instance of C10: 100 accepted rows, window 60. -/
theorem window_truncation_wit :
    gexLoop [("u", Except.ok dfW10)] = some (tailN 60 (setSrc dfW10 "u"))
    ∧ (tailN 60 (setSrc dfW10 "u")).rows = dfW10.rows.drop (dfW10.rows.length - 60)
    ∧ (tailN 60 (setSrc dfW10 "u")).rows.length = 60 :=
  window_truncation.1 "u" dfW10 [] (by decide) (by decide)

end TrustFlash
